import Mathlib

/-!
Verification of the sundials4py binding-generator repository.

The development shallowly embeds the three Python source files:

* `src/litgen_extensions/preprocess.py` — the header-text preprocessor
  (`strip_sundials_export`, `change_long_int_to_long`, `preprocess_header`),
  built on Python's `str.replace` (non-overlapping, left-to-right).
* `src/litgen_extensions/adapt_sundials_type_returns.py` — the
  `adapt_sundials_types_returns_to_shared_ptr` function adapter.
* `src/generate.py` — the per-module `generate` driver loop.

Strings that the Python code scans character-by-character are modelled as
`List Char`; user-facing strings are Lean `String`s (a `String` wraps a
`List Char`, so the two views convert by `String.data` / `String.mk`).
-/

namespace Sundials4py

/-- `isPySpace c` models Python's regex class `\s` and `str.strip`'s notion of
whitespace: space, tab, newline, carriage return, vertical tab, form feed. -/
def isPySpace (c : Char) : Bool :=
  c = ' ' || c = '\t' || c = '\n' || c = '\r' || c = '\x0b' || c = '\x0c'

/-- `occursIn pat s` is true iff the character list `pat` occurs as a
contiguous substring of `s` (Python's `pat in s`). -/
def occursIn (pat : List Char) : List Char → Bool
  | [] => pat.isPrefixOf []
  | c :: cs => pat.isPrefixOf (c :: cs) || occursIn pat cs

/-- `countOccur pat s` counts the positions of `s` at which `pat` occurs
(used to state "appears exactly once"). -/
def countOccur (pat : List Char) : List Char → Nat
  | [] => if pat.isPrefixOf ([] : List Char) then 1 else 0
  | c :: cs => (if pat.isPrefixOf (c :: cs) then 1 else 0) + countOccur pat cs

/-- Fuel-indexed worker for `pyReplace`.  At each position it tries to match
`pat`; on a match it emits `rep` and skips past the matched text, otherwise it
keeps one character and moves on.  The fuel only bounds the recursion depth;
`fuel = s.length` is always enough because each step consumes at least one
character of a nonempty list. -/
def replaceAux (pat rep : List Char) : Nat → List Char → List Char
  | _, [] => []
  | 0, s => s
  | Nat.succ n, c :: cs =>
    if pat.isPrefixOf (c :: cs) then
      rep ++ replaceAux pat rep n ((c :: cs).drop pat.length)
    else
      c :: replaceAux pat rep n cs

/-- `pyReplace s pat rep` models Python's `s.replace(pat, rep)` for a
nonempty `pat`: non-overlapping replacement, scanning left to right. -/
def pyReplace (s pat rep : List Char) : List Char :=
  replaceAux pat rep s.length s

/-- String-typed wrapper for `pyReplace`. -/
def pyReplaceS (s pat rep : String) : String :=
  String.mk (pyReplace s.data pat.data rep.data)

/-- From `src/litgen_extensions/preprocess.py`:
`strip_sundials_export(code)` is `code.replace("SUNDIALS_EXPORT", "")`. -/
def strip_sundials_export (code : String) : String :=
  pyReplaceS code "SUNDIALS_EXPORT" ""

/-- From `src/litgen_extensions/preprocess.py`:
`change_long_int_to_long(code)` is `code.replace("long int", "long")`. -/
def change_long_int_to_long (code : String) : String :=
  pyReplaceS code "long int" "long"

/-- From `src/litgen_extensions/preprocess.py`: `preprocess_header` strips the
export token and then rewrites the two-word integer spelling. -/
def preprocess_header (code : String) : String :=
  change_long_int_to_long (strip_sundials_export code)

/-- If `pat` does not occur in `s`, `replaceAux` leaves `s` unchanged,
whatever the fuel. -/
theorem replaceAux_of_not_occurs (pat rep : List Char) :
    ∀ (n : Nat) (s : List Char), occursIn pat s = false →
      replaceAux pat rep n s = s := by
  intro n
  induction n with
  | zero => intro s _; cases s <;> rfl
  | succ n ih =>
    intro s h
    cases s with
    | nil => rfl
    | cons c cs =>
      simp only [occursIn, Bool.or_eq_false_iff] at h
      simp only [replaceAux, h.1, if_neg, Bool.false_eq_true, not_false_iff,
        ih cs h.2]

/-- If `pat` does not occur in `s`, Python's replace leaves `s` unchanged. -/
theorem pyReplace_of_not_occurs (s pat rep : List Char)
    (h : occursIn pat s = false) : pyReplace s pat rep = s :=
  replaceAux_of_not_occurs pat rep s.length s h

/-- If a string contains neither search token, `preprocess_header` leaves it
unchanged. -/
theorem preprocess_header_of_token_free (s : String)
    (h1 : occursIn "SUNDIALS_EXPORT".data s.data = false)
    (h2 : occursIn "long int".data s.data = false) :
    preprocess_header s = s := by
  unfold preprocess_header strip_sundials_export change_long_int_to_long
    pyReplaceS
  rw [pyReplace_of_not_occurs _ _ _ h1]
  rw [pyReplace_of_not_occurs _ _ _ h2]

/-- C5 counterexample: header preprocessing is NOT idempotent for every input.
Deleting `SUNDIALS_EXPORT` can splice together a fresh occurrence of the
token: one pass over `"SUNDIALS_EXPSUNDIALS_EXPORTORT"` yields
`"SUNDIALS_EXPORT"`, and a second pass deletes that, yielding `""`. -/
theorem claim_C5_counterexample :
    preprocess_header (preprocess_header "SUNDIALS_EXPSUNDIALS_EXPORTORT") ≠
      preprocess_header "SUNDIALS_EXPSUNDIALS_EXPORTORT" := by
  decide

/-- C5 (amended): `preprocess_header` is idempotent on every input whose
once-preprocessed text contains neither `"SUNDIALS_EXPORT"` nor `"long int"`
as a substring; the second application then changes nothing. -/
theorem claim_C5_amended_idempotent (s : String)
    (h1 : occursIn "SUNDIALS_EXPORT".data (preprocess_header s).data = false)
    (h2 : occursIn "long int".data (preprocess_header s).data = false) :
    preprocess_header (preprocess_header s) = preprocess_header s :=
  preprocess_header_of_token_free (preprocess_header s) h1 h2

/-- C5 witness: the amended idempotence applied at the concrete header text
`"SUNDIALS_EXPORT long int x;"`. -/
theorem claim_C5_witness :
    occursIn "SUNDIALS_EXPORT".data
        (preprocess_header "SUNDIALS_EXPORT long int x;").data = false ∧
      occursIn "long int".data
        (preprocess_header "SUNDIALS_EXPORT long int x;").data = false ∧
      preprocess_header (preprocess_header "SUNDIALS_EXPORT long int x;") =
        preprocess_header "SUNDIALS_EXPORT long int x;" :=
  ⟨by decide, by decide,
    claim_C5_amended_idempotent "SUNDIALS_EXPORT long int x;"
      (by decide) (by decide)⟩

/-! ## The shared-pointer return adapter

Embedding of `src/litgen_extensions/adapt_sundials_type_returns.py`.
The srcmlcpp/litgen objects the adapter reads are mirrored structurally:
a `CppType` carries its `typenames`, `specifiers` and `modifiers` lists, and
both `str(type)` and `str_return_type()` are modelled as the space-joined
rendering `CppType.strCode` (for the plain C typedef names the adapter
matches, the two renderings agree). -/

/-- `strStartsWith pre s` models Python's `s.startswith(pre)`. -/
def strStartsWith (pre s : String) : Bool :=
  pre.data.isPrefixOf s.data

/-- `containsStr pat s` models Python's `pat in s` for strings. -/
def containsStr (pat s : String) : Bool :=
  occursIn pat.data s.data

/-- `joinSep sep xs` models Python's `sep.join(xs)`. -/
def joinSep (sep : String) : List String → String
  | [] => ""
  | [x] => x
  | x :: y :: xs => x ++ sep ++ joinSep sep (y :: xs)

/-- `pyStrip s` models Python's `str.strip()`: drop leading and trailing
whitespace. -/
def pyStrip (s : List Char) : List Char :=
  ((s.dropWhile isPySpace).reverse.dropWhile isPySpace).reverse

/-- `splitOnCommaAux acc s` splits `s` at every `','` (Python's
`s.split(",")`); `acc` holds the reversed characters of the current piece. -/
def splitOnCommaAux (acc : List Char) : List Char → List (List Char)
  | [] => [acc.reverse]
  | c :: cs =>
    if c = ',' then acc.reverse :: splitOnCommaAux [] cs
    else splitOnCommaAux (c :: acc) cs

/-- `mapIdx2 g i l` applies `g` to each element of `l` together with its
index, starting the count at `i` (Python's `enumerate`). -/
def mapIdx2 (g : Nat → α → β) : Nat → List α → List β
  | _, [] => []
  | i, a :: as => g i a :: mapIdx2 g (i + 1) as

/-- `filterMapIdx g i l` keeps the `some` results of `g` applied to each
element of `l` with its index, counting from `i`. -/
def filterMapIdx (g : Nat → α → Option β) : Nat → List α → List β
  | _, [] => []
  | i, a :: as =>
    match g i a with
    | some b => b :: filterMapIdx g (i + 1) as
    | none => filterMapIdx g (i + 1) as

/-- A C++ type as srcmlcpp exposes it to the adapter: its list of typenames,
specifiers (e.g. `const`) and modifiers (e.g. `*`). -/
structure CppType where
  typenames : List String
  specifiers : List String
  modifiers : List String
  deriving DecidableEq, Repr

/-- The string rendering of a `CppType`: specifiers, typenames and modifiers
joined by single spaces.  Models both `str(cpp_type)` and
`cpp_type.str_return_type()` as the adapter uses them. -/
def CppType.strCode (t : CppType) : String :=
  joinSep " " (t.specifiers ++ t.typenames ++ t.modifiers)

/-- One function parameter as the adapter reads it:
`param.cpp_element().decl.cpp_type.typenames` and
`param.cpp_element().decl.decl_name`. -/
structure CppParameter where
  typenames : List String
  decl_name : String
  deriving DecidableEq, Repr

/-- The slice of litgen's `AdaptedFunction` the adapter reads: the adapted
function's name, return type and parameters, the element's comments (a list
of comment lines, to which `add_eol_comment` appends), and the configured
`options.sundials_pointer_types`. -/
structure AdaptedFunction where
  function_name : String
  return_type : CppType
  parameters : List CppParameter
  comments : List String
  pointer_types : List String
  deriving DecidableEq, Repr

/-- `comments_as_str()`: the element's comments joined into one string. -/
def commentsAsStr (cs : List String) : String :=
  joinSep "\n" cs

/-- The fields of the `LambdaAdapter` the adapter fills in. -/
structure LambdaAdapter where
  new_return_type : CppType
  lambda_output_code : String
  adapted_cpp_parameter_list : List String
  lambda_name : String
  deriving DecidableEq, Repr

/-- Outcome of one call to the adapter: `noChange` models `return None`,
`adapted la cs` models returning the lambda adapter `la` after the element's
comments have been mutated to `cs`, and `error msg` models an uncaught
`RuntimeError(msg)`. -/
inductive AdaptOutcome where
  | noChange
  | adapted (la : LambdaAdapter) (comments : List String)
  | error (msg : String)
  deriving DecidableEq, Repr

/-- The lazy capture of `re.match(r"std::tuple\s*<(.+?)>", s)` once the
leading `<` has been consumed: the group is the shortest nonempty prefix
(of non-newline characters, since `.` does not match a newline) that is
followed by `>`. -/
def lazyCaptureTail (c0 : Char) : List Char → Option (List Char)
  | [] => none
  | c :: cs =>
    if c = '>' then some [c0]
    else if c = '\n' then none
    else
      match lazyCaptureTail c cs with
      | some g => some (c0 :: g)
      | none => none

/-- `lazyCapture t` finds the group of `(.+?)>` at the start of `t`. -/
def lazyCapture : List Char → Option (List Char)
  | [] => none
  | c :: cs => if c = '\n' then none else lazyCaptureTail c cs

/-- `matchTupleArgs s` models
`re.match(r"std::tuple\s*<(.+?)>", s)` followed by
`[arg.strip() for arg in match.group(1).split(",")]`, for an `s` that starts
with `"std::tuple"`; `none` models a failed match. -/
def matchTupleArgs (s : String) : Option (List String) :=
  match (s.data.drop 10).dropWhile isPySpace with
  | [] => none
  | c :: cs =>
    if c = '<' then
      match lazyCapture cs with
      | some grp => some ((splitOnCommaAux [] grp).map
          (fun piece => String.mk (pyStrip piece)))
      | none => none
    else none

/-- The `nb::keep_alive<0, idx+1>()` comments the scalar branch adds: one per
parameter whose type's typenames mention `SUNContext`, in parameter order. -/
def keepAliveComments (params : List CppParameter) : List String :=
  filterMapIdx
    (fun i p =>
      if p.typenames.contains "SUNContext" then
        some ("nb::keep_alive<0, " ++ Nat.repr (i + 1) ++ ">()")
      else none)
    0 params

/-- The `nb::call_policy<...>` comments the tuple branch adds: one per
parameter whose type's typenames mention `SUNContext`, pairing the 1-based
parameter index with the joined nurse-slot indices. -/
def callPolicyComments (params : List CppParameter) (nurseArgs : String) :
    List String :=
  filterMapIdx
    (fun i p =>
      if p.typenames.contains "SUNContext" then
        some ("nb::call_policy<sundials4py::returns_references_to<" ++
          Nat.repr (i + 1) ++ ", " ++ nurseArgs ++ ">>()")
      else none)
    0 params

/-- `idx_nurse_list`: the 0-based tuple-slot indices whose type string is one
of the configured pointer types. -/
def nurseIndices (args ptypes : List String) : List Nat :=
  filterMapIdx
    (fun i a => if ptypes.contains a then some i else none)
    0 args

/-- The rewritten tuple slot types: handle-typed slots become
`std::shared_ptr<std::remove_pointer_t<...>>`, all others are kept as-is. -/
def wrapNurseArgs (args ptypes : List String) : List String :=
  args.map (fun a =>
    if ptypes.contains a then
      "std::shared_ptr<std::remove_pointer_t<" ++ a ++ ">>"
    else a)

/-- The per-slot expressions of the emitted `std::make_tuple(...)`:
handle-typed slots are wrapped in `our_make_shared`, all others pass
through `std::get<i>(lambda_result)` unchanged. -/
def tupleReturnParts (args ptypes : List String) : List String :=
  mapIdx2
    (fun i a =>
      if ptypes.contains a then
        "our_make_shared<std::remove_pointer_t<" ++ a ++ ">, " ++ a ++
          "Deleter>(std::get<" ++ Nat.repr i ++ ">(lambda_result))"
      else
        "std::get<" ++ Nat.repr i ++ ">(lambda_result)")
    0 args

/-- The tuple branch of the adapter (reached when the return-type string
starts with `std::tuple`, the regex matched, and some slot is a configured
pointer type).  Comments are added before the `typenames` length check, as in
the source. -/
def adaptTupleBranch (f : AdaptedFunction) (args : List String) :
    AdaptOutcome :=
  let nurse := nurseIndices args f.pointer_types
  let nurseArgs := joinSep ", " (nurse.map Nat.repr)
  let newComments := f.comments ++ callPolicyComments f.parameters nurseArgs
  if f.return_type.typenames.length > 1 then
    .error "new_return_type.typenames has length > 1, this is not yet supported"
  else
    let tupleType :=
      "std::tuple<" ++ joinSep ", " (wrapNurseArgs args f.pointer_types) ++ ">"
    .adapted
      { new_return_type :=
          { typenames := [tupleType], specifiers := [], modifiers := [] }
        lambda_output_code :=
          "return std::make_tuple(" ++
            joinSep ", " (tupleReturnParts args f.pointer_types) ++ ");" ++ "\n"
        adapted_cpp_parameter_list := f.parameters.map (·.decl_name)
        lambda_name :=
          f.function_name ++ "_adapt_return_type_to_shared_ptr" }
      newComments

/-- The scalar branch of the adapter (reached when the return-type string is
itself one of the configured pointer types). -/
def adaptScalarBranch (f : AdaptedFunction) : AdaptOutcome :=
  let newComments := f.comments ++ keepAliveComments f.parameters
  let oldStr := f.return_type.strCode
  .adapted
    { new_return_type :=
        { typenames :=
            ["std::shared_ptr<std::remove_pointer_t<" ++ oldStr ++ ">>"]
          specifiers := []
          modifiers := [] }
      lambda_output_code :=
        "return our_make_shared<std::remove_pointer_t<" ++ oldStr ++ ">, " ++
          oldStr ++ "Deleter>(lambda_result);" ++ "\n"
      adapted_cpp_parameter_list := f.parameters.map (·.decl_name)
      lambda_name := f.function_name ++ "_adapt_return_type_to_shared_ptr" }
    newComments

/-- `adapt_sundials_types_returns_to_shared_ptr`, following the source's
control flow: bail out on the raw-reference annotation; on a `std::tuple`
return, parse the slots and adapt if some slot is a configured pointer type;
on a scalar return, adapt if the return-type string is a configured pointer
type; otherwise return `None`. -/
def adapt_sundials_types_returns_to_shared_ptr (f : AdaptedFunction) :
    AdaptOutcome :=
  let return_type_str := f.return_type.strCode
  if containsStr "nb::rv_policy::reference" (commentsAsStr f.comments) then
    .noChange
  else if strStartsWith "std::tuple" return_type_str then
    match matchTupleArgs return_type_str with
    | none => .noChange
    | some args =>
      if args.any (fun a => f.pointer_types.contains a) then
        adaptTupleBranch f args
      else .noChange
  else if f.pointer_types.contains return_type_str then
    adaptScalarBranch f
  else .noChange

/-- The base `options.sundials_pointer_types` list set in `src/generate.py`. -/
def baseSundialsPointerTypes : List String :=
  ["N_Vector", "SUNAdaptController", "SUNAdjointCheckpointScheme",
   "MRIStepInnerStepper", "SUNAdjointStepper", "SUNContext",
   "SUNDomEigEstimator", "SUNErrHandler", "SUNLinearSolver", "SUNLogger",
   "SUNMatrix", "SUNMemoryHelper", "SUNNonlinearSolver", "SUNProfiler",
   "SUNStepper"]

/-- A concrete function shaped like `N_Vector N_VClone(N_Vector w)`. -/
def exampleScalarFn : AdaptedFunction :=
  { function_name := "N_VClone"
    return_type := { typenames := ["N_Vector"], specifiers := [], modifiers := [] }
    parameters := [{ typenames := ["N_Vector"], decl_name := "w" }]
    comments := []
    pointer_types := baseSundialsPointerTypes }

/-- C1: for a function whose return-type string is one of the configured
opaque-handle type names (a plain typedef name, so not of tuple shape) and
whose comments lack the raw-reference annotation, the adapter produces a
rewrite whose new return type is `std::shared_ptr<std::remove_pointer_t<T>>`
with the original modifiers and specifiers cleared, and whose emitted output
code is precisely one invocation of
`our_make_shared<std::remove_pointer_t<T>, TDeleter>` applied to the raw
`lambda_result`. -/
theorem claim_C1_scalar_handle_return (f : AdaptedFunction)
    (hno : containsStr "nb::rv_policy::reference"
      (commentsAsStr f.comments) = false)
    (hnt : strStartsWith "std::tuple" f.return_type.strCode = false)
    (hmem : f.pointer_types.contains f.return_type.strCode = true) :
    ∃ la c, adapt_sundials_types_returns_to_shared_ptr f = .adapted la c ∧
      la.new_return_type =
        { typenames := ["std::shared_ptr<std::remove_pointer_t<" ++
            f.return_type.strCode ++ ">>"]
          specifiers := []
          modifiers := [] } ∧
      la.lambda_output_code =
        "return our_make_shared<std::remove_pointer_t<" ++
          f.return_type.strCode ++ ">, " ++ f.return_type.strCode ++
          "Deleter>(lambda_result);" ++ "\n" := by
  have h : adapt_sundials_types_returns_to_shared_ptr f =
      adaptScalarBranch f := by
    simp only [adapt_sundials_types_returns_to_shared_ptr, hno, hnt, hmem,
      Bool.false_eq_true, if_false, if_true]
  rw [h]
  exact ⟨_, _, rfl, rfl, rfl⟩

/-- C1 witness: the scalar-handle rewrite evaluated on
`N_Vector N_VClone(N_Vector w)`, with one `our_make_shared` occurrence in
the emitted code. -/
theorem claim_C1_witness :
    (∃ la c, adapt_sundials_types_returns_to_shared_ptr exampleScalarFn =
        .adapted la c ∧
      la.new_return_type =
        { typenames :=
            ["std::shared_ptr<std::remove_pointer_t<N_Vector>>"]
          specifiers := []
          modifiers := [] } ∧
      la.lambda_output_code =
        "return our_make_shared<std::remove_pointer_t<N_Vector>, " ++
          "N_VectorDeleter>(lambda_result);\n") ∧
    countOccur "our_make_shared".data
      ("return our_make_shared<std::remove_pointer_t<N_Vector>, N_VectorDeleter>(lambda_result);\n").data = 1 := by
  constructor
  · have h := claim_C1_scalar_handle_return exampleScalarFn
      (by decide) (by decide) (by decide)
    simpa [exampleScalarFn, CppType.strCode, joinSep] using h
  · decide

/-- C4: if the function's comments contain the raw-reference annotation
`nb::rv_policy::reference`, the adapter returns `None`, whatever the return
type. -/
theorem claim_C4_raw_reference_skips (f : AdaptedFunction)
    (h : containsStr "nb::rv_policy::reference"
      (commentsAsStr f.comments) = true) :
    adapt_sundials_types_returns_to_shared_ptr f = .noChange := by
  simp only [adapt_sundials_types_returns_to_shared_ptr, h, if_true]

/-- C4 witness: a handle-returning function annotated with
`nb::rv_policy::reference` is left unchanged. -/
theorem claim_C4_witness :
    containsStr "nb::rv_policy::reference"
        (commentsAsStr ["returns view nb::rv_policy::reference here"]) =
      true ∧
    adapt_sundials_types_returns_to_shared_ptr
        { exampleScalarFn with
            comments := ["returns view nb::rv_policy::reference here"] } =
      .noChange :=
  ⟨by decide,
    claim_C4_raw_reference_skips
      { exampleScalarFn with
          comments := ["returns view nb::rv_policy::reference here"] }
      (by decide)⟩

/-- C9: the adapter matches scalar returns by exact string equality: when the
return-type string neither starts with `std::tuple` nor equals one of the
configured pointer-type names character for character, the adapter returns
`None`. -/
theorem claim_C9_exact_string_match (f : AdaptedFunction)
    (hnt : strStartsWith "std::tuple" f.return_type.strCode = false)
    (hmem : f.pointer_types.contains f.return_type.strCode = false) :
    adapt_sundials_types_returns_to_shared_ptr f = .noChange := by
  have hmem2 : f.return_type.strCode ∉ f.pointer_types := by
    simpa using hmem
  unfold adapt_sundials_types_returns_to_shared_ptr
  cases hc : containsStr "nb::rv_policy::reference"
      (commentsAsStr f.comments) <;>
    simp [hc, hnt, hmem, hmem2]

/-- C9 witness: `N_Vector *` and `const N_Vector` return types (near misses
of the configured name `N_Vector`) are both left unchanged. -/
theorem claim_C9_witness :
    adapt_sundials_types_returns_to_shared_ptr
        { exampleScalarFn with
            return_type :=
              { typenames := ["N_Vector"], specifiers := [],
                modifiers := ["*"] } } = .noChange ∧
    adapt_sundials_types_returns_to_shared_ptr
        { exampleScalarFn with
            return_type :=
              { typenames := ["N_Vector"], specifiers := ["const"],
                modifiers := [] } } = .noChange :=
  ⟨claim_C9_exact_string_match _ (by decide) (by decide),
    claim_C9_exact_string_match _ (by decide) (by decide)⟩

/-- `mapIdx2` preserves length. -/
theorem length_mapIdx2 (g : Nat → α → β) :
    ∀ (j : Nat) (l : List α), (mapIdx2 g j l).length = l.length := by
  intro j l
  induction l generalizing j with
  | nil => rfl
  | cons a as ih => simp [mapIdx2, ih]

/-- The `i`-th element of `mapIdx2 g j l` is `g (j + i)` of the `i`-th
element of `l`. -/
theorem getD_mapIdx2 (g : Nat → α → β) (d : β) (da : α) :
    ∀ (l : List α) (j i : Nat), i < l.length →
      (mapIdx2 g j l).getD i d = g (j + i) (l.getD i da) := by
  intro l
  induction l with
  | nil => intro j i h; simp at h
  | cons a as ih =>
    intro j i h
    cases i with
    | zero => simp [mapIdx2]
    | succ i =>
      simp only [mapIdx2, List.getD_cons_succ]
      rw [ih (j + 1) i (by simpa using Nat.lt_of_succ_lt_succ h)]
      have : j + 1 + i = j + (i + 1) := by omega
      rw [this]

/-- If `g` maps the `i`-th element of `l` (at running index `j + i`) to
`some b`, then `b` appears in `filterMapIdx g j l`. -/
theorem mem_filterMapIdx (g : Nat → α → Option β) (da : α) :
    ∀ (l : List α) (j i : Nat), i < l.length →
      g (j + i) (l.getD i da) = some b → b ∈ filterMapIdx g j l := by
  intro l
  induction l with
  | nil => intro j i h; simp at h
  | cons a as ih =>
    intro j i h hg
    cases i with
    | zero =>
      simp only [List.getD_cons_zero, Nat.add_zero] at hg
      simp only [filterMapIdx, hg]
      exact List.mem_cons_self b _
    | succ i =>
      simp only [List.getD_cons_succ] at hg
      have hg2 : g (j + 1 + i) (as.getD i da) = some b := by
        have : j + 1 + i = j + (i + 1) := by omega
        rw [this]; exact hg
      have hmem := ih (j + 1) i (by simpa using Nat.lt_of_succ_lt_succ h) hg2
      simp only [filterMapIdx]
      cases g j a with
      | none => exact hmem
      | some c => exact List.mem_cons_of_mem c hmem

/-- If `g` yields `none` on every element of `l` (at every index),
`filterMapIdx g j l` is empty. -/
theorem filterMapIdx_eq_nil (g : Nat → α → Option β)
    (hg : ∀ i a, a ∈ l → g i a = none) :
    ∀ (j : Nat), filterMapIdx g j l = [] := by
  induction l with
  | nil => intro j; rfl
  | cons a as ih =>
    intro j
    simp only [filterMapIdx, hg j a (List.mem_cons_self a as)]
    exact ih (fun i a ha => hg i a (List.mem_cons_of_mem _ ha)) (j + 1)

/-- The `i`-th rewritten tuple slot: unchanged when the slot type is not a
configured pointer type, wrapped in the shared-pointer form when it is. -/
theorem wrapNurseArgs_getD (args ptypes : List String) (i : Nat)
    (h : i < args.length) :
    (wrapNurseArgs args ptypes).getD i "" =
      (if ptypes.contains (args.getD i "") then
        "std::shared_ptr<std::remove_pointer_t<" ++ args.getD i "" ++ ">>"
      else args.getD i "") := by
  induction args generalizing i with
  | nil => simp at h
  | cons a as ih =>
    cases i with
    | zero => simp [wrapNurseArgs]
    | succ i =>
      simp only [wrapNurseArgs, List.map_cons, List.getD_cons_succ]
      exact ih i (by simpa using Nat.lt_of_succ_lt_succ h)

/-- `wrapNurseArgs` preserves the number of tuple slots. -/
theorem length_wrapNurseArgs (args ptypes : List String) :
    (wrapNurseArgs args ptypes).length = args.length :=
  List.length_map args _

/-- `tupleReturnParts` produces one expression per tuple slot. -/
theorem length_tupleReturnParts (args ptypes : List String) :
    (tupleReturnParts args ptypes).length = args.length :=
  length_mapIdx2 _ 0 args

/-- The `i`-th emitted tuple expression: the pass-through
`std::get<i>(lambda_result)` for a non-handle slot, the `our_make_shared`
wrapping of the same value for a handle slot. -/
theorem tupleReturnParts_getD (args ptypes : List String) (i : Nat)
    (h : i < args.length) :
    (tupleReturnParts args ptypes).getD i "" =
      (if ptypes.contains (args.getD i "") then
        "our_make_shared<std::remove_pointer_t<" ++ args.getD i "" ++ ">, " ++
          args.getD i "" ++ "Deleter>(std::get<" ++ Nat.repr i ++
          ">(lambda_result))"
      else "std::get<" ++ Nat.repr i ++ ">(lambda_result)") := by
  have := getD_mapIdx2
    (fun i a =>
      if ptypes.contains a then
        "our_make_shared<std::remove_pointer_t<" ++ a ++ ">, " ++ a ++
          "Deleter>(std::get<" ++ Nat.repr i ++ ">(lambda_result))"
      else
        "std::get<" ++ Nat.repr i ++ ">(lambda_result)")
    "" "" args 0 i h
  simpa [tupleReturnParts] using this

/-- A concrete function with a tuple-shaped return
`std::tuple<int, N_Vector>` and a leading `SUNContext` parameter. -/
def exampleTupleFn : AdaptedFunction :=
  { function_name := "MakePair"
    return_type :=
      { typenames := ["std::tuple<int, N_Vector>"], specifiers := [],
        modifiers := [] }
    parameters := [{ typenames := ["SUNContext"], decl_name := "ctx" },
                   { typenames := ["int"], decl_name := "n" }]
    comments := []
    pointer_types := baseSundialsPointerTypes }

/-- C2: for a function with a `std::tuple` return whose parsed slot list
`args` contains at least one configured pointer-type name (and whose
copied return type has a single typename, so the unsupported-shape error is
not hit), the adapter rewrites the return: slot `i` of the new tuple type and
of the emitted `std::make_tuple` is wrapped via `our_make_shared` exactly
when slot `i` is handle-typed, every other slot passes through
`std::get<i>(lambda_result)` with its type unchanged, and the slot count and
order are preserved. -/
theorem claim_C2_tuple_wraps_handle_slots (f : AdaptedFunction)
    (args : List String)
    (hno : containsStr "nb::rv_policy::reference"
      (commentsAsStr f.comments) = false)
    (hst : strStartsWith "std::tuple" f.return_type.strCode = true)
    (hm : matchTupleArgs f.return_type.strCode = some args)
    (hany : args.any (fun a => f.pointer_types.contains a) = true)
    (hlen : f.return_type.typenames.length ≤ 1) :
    ∃ la c, adapt_sundials_types_returns_to_shared_ptr f = .adapted la c ∧
      la.new_return_type.typenames =
        ["std::tuple<" ++
          joinSep ", " (wrapNurseArgs args f.pointer_types) ++ ">"] ∧
      la.lambda_output_code =
        "return std::make_tuple(" ++
          joinSep ", " (tupleReturnParts args f.pointer_types) ++ ");" ++
          "\n" ∧
      (wrapNurseArgs args f.pointer_types).length = args.length ∧
      (tupleReturnParts args f.pointer_types).length = args.length ∧
      (∀ i, i < args.length →
        (f.pointer_types.contains (args.getD i "") = false →
          (wrapNurseArgs args f.pointer_types).getD i "" = args.getD i "" ∧
          (tupleReturnParts args f.pointer_types).getD i "" =
            "std::get<" ++ Nat.repr i ++ ">(lambda_result)") ∧
        (f.pointer_types.contains (args.getD i "") = true →
          (wrapNurseArgs args f.pointer_types).getD i "" =
            "std::shared_ptr<std::remove_pointer_t<" ++ args.getD i "" ++
              ">>" ∧
          (tupleReturnParts args f.pointer_types).getD i "" =
            "our_make_shared<std::remove_pointer_t<" ++ args.getD i "" ++
              ">, " ++ args.getD i "" ++ "Deleter>(std::get<" ++
              Nat.repr i ++ ">(lambda_result))")) := by
  have hred : adapt_sundials_types_returns_to_shared_ptr f =
      adaptTupleBranch f args := by
    unfold adapt_sundials_types_returns_to_shared_ptr
    simp only [hno, Bool.false_eq_true, if_false, hst, if_true, hm, hany]
  have hgt : ¬ f.return_type.typenames.length > 1 := by omega
  have hbr : adaptTupleBranch f args =
      .adapted
        { new_return_type :=
            { typenames :=
                ["std::tuple<" ++
                  joinSep ", " (wrapNurseArgs args f.pointer_types) ++ ">"]
              specifiers := []
              modifiers := [] }
          lambda_output_code :=
            "return std::make_tuple(" ++
              joinSep ", " (tupleReturnParts args f.pointer_types) ++ ");" ++
              "\n"
          adapted_cpp_parameter_list := f.parameters.map (·.decl_name)
          lambda_name :=
            f.function_name ++ "_adapt_return_type_to_shared_ptr" }
        (f.comments ++ callPolicyComments f.parameters
          (joinSep ", "
            ((nurseIndices args f.pointer_types).map Nat.repr))) := by
    unfold adaptTupleBranch
    rw [if_neg hgt]
  refine ⟨_, _, hred.trans hbr, rfl, rfl,
    length_wrapNurseArgs args f.pointer_types,
    length_tupleReturnParts args f.pointer_types, ?_⟩
  intro i hi
  constructor
  · intro hnc
    constructor
    · rw [wrapNurseArgs_getD args f.pointer_types i hi, hnc]; simp
    · rw [tupleReturnParts_getD args f.pointer_types i hi, hnc]; simp
  · intro hc
    constructor
    · rw [wrapNurseArgs_getD args f.pointer_types i hi, hc]; simp
    · rw [tupleReturnParts_getD args f.pointer_types i hi, hc]; simp

/-- C2 witness: the tuple rewrite on a function returning
`std::tuple<int, N_Vector>`: slot 0 (`int`) passes through unchanged, slot 1
(`N_Vector`) is wrapped. -/
theorem claim_C2_witness :
    (∃ la c,
      adapt_sundials_types_returns_to_shared_ptr exampleTupleFn =
        .adapted la c ∧
      la.new_return_type.typenames =
        ["std::tuple<" ++
          joinSep ", "
            (wrapNurseArgs ["int", "N_Vector"] baseSundialsPointerTypes) ++
          ">"] ∧
      la.lambda_output_code =
        "return std::make_tuple(" ++
          joinSep ", "
            (tupleReturnParts ["int", "N_Vector"] baseSundialsPointerTypes) ++
          ");" ++ "\n" ∧
      (wrapNurseArgs ["int", "N_Vector"] baseSundialsPointerTypes).length =
        (["int", "N_Vector"] : List String).length ∧
      (tupleReturnParts ["int", "N_Vector"] baseSundialsPointerTypes).length =
        (["int", "N_Vector"] : List String).length ∧
      (∀ i, i < (["int", "N_Vector"] : List String).length →
        (baseSundialsPointerTypes.contains
            ((["int", "N_Vector"] : List String).getD i "") = false →
          (wrapNurseArgs ["int", "N_Vector"]
            baseSundialsPointerTypes).getD i "" =
            (["int", "N_Vector"] : List String).getD i "" ∧
          (tupleReturnParts ["int", "N_Vector"]
            baseSundialsPointerTypes).getD i "" =
            "std::get<" ++ Nat.repr i ++ ">(lambda_result)") ∧
        (baseSundialsPointerTypes.contains
            ((["int", "N_Vector"] : List String).getD i "") = true →
          (wrapNurseArgs ["int", "N_Vector"]
            baseSundialsPointerTypes).getD i "" =
            "std::shared_ptr<std::remove_pointer_t<" ++
              (["int", "N_Vector"] : List String).getD i "" ++ ">>" ∧
          (tupleReturnParts ["int", "N_Vector"]
            baseSundialsPointerTypes).getD i "" =
            "our_make_shared<std::remove_pointer_t<" ++
              (["int", "N_Vector"] : List String).getD i "" ++ ">, " ++
              (["int", "N_Vector"] : List String).getD i "" ++
              "Deleter>(std::get<" ++ Nat.repr i ++
              ">(lambda_result))"))) ∧
    tupleReturnParts ["int", "N_Vector"] baseSundialsPointerTypes =
      ["std::get<0>(lambda_result)",
       "our_make_shared<std::remove_pointer_t<N_Vector>, " ++
         "N_VectorDeleter>(std::get<1>(lambda_result))"] :=
  ⟨claim_C2_tuple_wraps_handle_slots exampleTupleFn ["int", "N_Vector"]
      (by decide) (by decide) (by decide) (by decide) (by decide),
    by decide⟩

/-- A handle-returning function with two handle parameters and a context
parameter in third position (0-based index 2). -/
def exampleKeep3 : AdaptedFunction :=
  { function_name := "N_VCloneCtx3"
    return_type := { typenames := ["N_Vector"], specifiers := [], modifiers := [] }
    parameters := [{ typenames := ["N_Vector"], decl_name := "a" },
                   { typenames := ["N_Vector"], decl_name := "b" },
                   { typenames := ["SUNContext"], decl_name := "sunctx" }]
    comments := []
    pointer_types := baseSundialsPointerTypes }

/-- A handle-returning function with a handle parameter and a context
parameter in second position (0-based index 1). -/
def exampleKeep2 : AdaptedFunction :=
  { function_name := "N_VCloneCtx2"
    return_type := { typenames := ["N_Vector"], specifiers := [], modifiers := [] }
    parameters := [{ typenames := ["N_Vector"], decl_name := "a" },
                   { typenames := ["SUNContext"], decl_name := "sunctx" }]
    comments := []
    pointer_types := baseSundialsPointerTypes }

/-- C3: whenever the adapter rewrites a function, it attaches keep-alive
annotations keyed by 1-based parameter indices.  Scalar rewrite: the new
comment list is exactly the original followed by the `nb::keep_alive<0, i+1>()`
lines, each parameter at 0-based position `i` whose type mentions
`SUNContext` contributes its line, and when no parameter mentions
`SUNContext` the comments are unchanged.  Tuple rewrite: likewise with the
`nb::call_policy<sundials4py::returns_references_to<i+1, s1, s2, ...>>()`
lines pairing `i+1` with every handle-typed tuple slot index. -/
theorem claim_C3_keep_alive_indices (f : AdaptedFunction) :
    (∀ (_ : containsStr "nb::rv_policy::reference"
          (commentsAsStr f.comments) = false)
       (_ : strStartsWith "std::tuple" f.return_type.strCode = false)
       (_ : f.pointer_types.contains f.return_type.strCode = true),
      ∃ la, adapt_sundials_types_returns_to_shared_ptr f =
          .adapted la (f.comments ++ keepAliveComments f.parameters) ∧
        (∀ i, i < f.parameters.length →
          "SUNContext" ∈ (f.parameters.getD i ⟨[], ""⟩).typenames →
          ("nb::keep_alive<0, " ++ Nat.repr (i + 1) ++ ">()") ∈
            f.comments ++ keepAliveComments f.parameters) ∧
        ((∀ p ∈ f.parameters, "SUNContext" ∉ p.typenames) →
          f.comments ++ keepAliveComments f.parameters = f.comments)) ∧
    (∀ (args : List String)
       (_ : containsStr "nb::rv_policy::reference"
          (commentsAsStr f.comments) = false)
       (_ : strStartsWith "std::tuple" f.return_type.strCode = true)
       (_ : matchTupleArgs f.return_type.strCode = some args)
       (_ : args.any (fun a => f.pointer_types.contains a) = true)
       (_ : f.return_type.typenames.length ≤ 1),
      ∃ la, adapt_sundials_types_returns_to_shared_ptr f =
          .adapted la (f.comments ++ callPolicyComments f.parameters
            (joinSep ", "
              ((nurseIndices args f.pointer_types).map Nat.repr))) ∧
        (∀ i, i < f.parameters.length →
          "SUNContext" ∈ (f.parameters.getD i ⟨[], ""⟩).typenames →
          ("nb::call_policy<sundials4py::returns_references_to<" ++
              Nat.repr (i + 1) ++ ", " ++
              joinSep ", "
                ((nurseIndices args f.pointer_types).map Nat.repr) ++
              ">>()") ∈
            f.comments ++ callPolicyComments f.parameters
              (joinSep ", "
                ((nurseIndices args f.pointer_types).map Nat.repr))) ∧
        ((∀ p ∈ f.parameters, "SUNContext" ∉ p.typenames) →
          f.comments ++ callPolicyComments f.parameters
            (joinSep ", "
              ((nurseIndices args f.pointer_types).map Nat.repr)) =
            f.comments)) := by
  constructor
  · intro hno hnt hmem
    have hred : adapt_sundials_types_returns_to_shared_ptr f =
        adaptScalarBranch f := by
      simp only [adapt_sundials_types_returns_to_shared_ptr, hno, hnt, hmem,
        Bool.false_eq_true, if_false, if_true]
    refine ⟨_, hred, ?_, ?_⟩
    · intro i hi hctx
      apply List.mem_append_right
      refine mem_filterMapIdx _ ⟨[], ""⟩ f.parameters 0 i hi ?_
      simp only [List.getD, List.get?_eq_getElem?] at hctx
      simp [hctx]
    · intro hnone
      rw [keepAliveComments,
        filterMapIdx_eq_nil _ (fun i a ha => by simp [hnone a ha]) 0,
        List.append_nil]
  · intro args hno hst hm hany hlen
    have hred : adapt_sundials_types_returns_to_shared_ptr f =
        adaptTupleBranch f args := by
      unfold adapt_sundials_types_returns_to_shared_ptr
      simp only [hno, Bool.false_eq_true, if_false, hst, if_true, hm, hany]
    have hgt : ¬ f.return_type.typenames.length > 1 := by omega
    have hbr : adaptTupleBranch f args = .adapted
        { new_return_type :=
            { typenames :=
                ["std::tuple<" ++
                  joinSep ", " (wrapNurseArgs args f.pointer_types) ++ ">"]
              specifiers := []
              modifiers := [] }
          lambda_output_code :=
            "return std::make_tuple(" ++
              joinSep ", " (tupleReturnParts args f.pointer_types) ++ ");" ++
              "\n"
          adapted_cpp_parameter_list := f.parameters.map (·.decl_name)
          lambda_name :=
            f.function_name ++ "_adapt_return_type_to_shared_ptr" }
        (f.comments ++ callPolicyComments f.parameters
          (joinSep ", "
            ((nurseIndices args f.pointer_types).map Nat.repr))) := by
      unfold adaptTupleBranch
      rw [if_neg hgt]
    refine ⟨_, hred.trans hbr, ?_, ?_⟩
    · intro i hi hctx
      apply List.mem_append_right
      refine mem_filterMapIdx _ ⟨[], ""⟩ f.parameters 0 i hi ?_
      simp only [List.getD, List.get?_eq_getElem?] at hctx
      simp [hctx]
    · intro hnone
      rw [callPolicyComments,
        filterMapIdx_eq_nil _ (fun i a ha => by simp [hnone a ha]) 0,
        List.append_nil]

/-- C3 witness: the keep-alive index arithmetic at concrete inputs — a
2-parameter function with the context in position 1 yields
`nb::keep_alive<0, 2>()`, a 3-parameter function with the context in
position 2 yields `nb::keep_alive<0, 3>()`, a tuple-returning function with
the context in position 0 yields the
`returns_references_to<1, 1>` call policy, and a rewrite with no context
parameter leaves the comments unchanged. -/
theorem claim_C3_witness :
    ("nb::keep_alive<0, " ++ Nat.repr (1 + 1) ++ ">()") ∈
      exampleKeep2.comments ++ keepAliveComments exampleKeep2.parameters ∧
    ("nb::keep_alive<0, " ++ Nat.repr (2 + 1) ++ ">()") ∈
      exampleKeep3.comments ++ keepAliveComments exampleKeep3.parameters ∧
    ("nb::call_policy<sundials4py::returns_references_to<" ++
        Nat.repr (0 + 1) ++ ", " ++
        joinSep ", "
          ((nurseIndices ["int", "N_Vector"]
            baseSundialsPointerTypes).map Nat.repr) ++ ">>()") ∈
      exampleTupleFn.comments ++ callPolicyComments exampleTupleFn.parameters
        (joinSep ", "
          ((nurseIndices ["int", "N_Vector"]
            baseSundialsPointerTypes).map Nat.repr)) ∧
    exampleScalarFn.comments ++ keepAliveComments exampleScalarFn.parameters =
      exampleScalarFn.comments := by
  obtain ⟨-, -, hmem2, -⟩ :=
    (claim_C3_keep_alive_indices exampleKeep2).1 (by decide) (by decide)
      (by decide)
  obtain ⟨-, -, hmem3, -⟩ :=
    (claim_C3_keep_alive_indices exampleKeep3).1 (by decide) (by decide)
      (by decide)
  obtain ⟨-, -, hmemt, -⟩ :=
    (claim_C3_keep_alive_indices exampleTupleFn).2 ["int", "N_Vector"]
      (by decide) (by decide) (by decide) (by decide) (by decide)
  obtain ⟨-, -, -, hun⟩ :=
    (claim_C3_keep_alive_indices exampleScalarFn).1 (by decide) (by decide)
      (by decide)
  exact ⟨hmem2 1 (by decide) (by decide), hmem3 2 (by decide) (by decide),
    hmemt 0 (by decide) (by decide), hun (by decide)⟩

/-- A function whose tuple-shaped return type carries two typenames,
triggering the unsupported-shape error. -/
def exampleBadTupleFn : AdaptedFunction :=
  { function_name := "BadShape"
    return_type :=
      { typenames := ["std::tuple<N_Vector, int>", "junk"]
        specifiers := []
        modifiers := [] }
    parameters := []
    comments := []
    pointer_types := baseSundialsPointerTypes }

/-- C6: in the tuple branch, a copied return type with more than one
typename raises the fatal `RuntimeError` carrying the "not yet supported"
signal; with exactly at most one typename the error branch is unreachable
and the adapter completes with a rewrite. -/
theorem claim_C6_multi_typename_error (f : AdaptedFunction)
    (args : List String)
    (hno : containsStr "nb::rv_policy::reference"
      (commentsAsStr f.comments) = false)
    (hst : strStartsWith "std::tuple" f.return_type.strCode = true)
    (hm : matchTupleArgs f.return_type.strCode = some args)
    (hany : args.any (fun a => f.pointer_types.contains a) = true) :
    (f.return_type.typenames.length > 1 →
      adapt_sundials_types_returns_to_shared_ptr f =
        .error
          "new_return_type.typenames has length > 1, this is not yet supported") ∧
    (f.return_type.typenames.length ≤ 1 →
      ∃ la c, adapt_sundials_types_returns_to_shared_ptr f =
        .adapted la c) := by
  have hred : adapt_sundials_types_returns_to_shared_ptr f =
      adaptTupleBranch f args := by
    unfold adapt_sundials_types_returns_to_shared_ptr
    simp only [hno, Bool.false_eq_true, if_false, hst, if_true, hm, hany]
  constructor
  · intro hgt
    rw [hred]
    unfold adaptTupleBranch
    rw [if_pos hgt]
  · intro hle
    have hgt : ¬ f.return_type.typenames.length > 1 := by omega
    rw [hred]
    unfold adaptTupleBranch
    rw [if_neg hgt]
    exact ⟨_, _, rfl⟩

/-- C6 witness: a two-typename tuple return aborts with the exact
"not yet supported" message, while the one-typename tuple return of
`exampleTupleFn` is rewritten without error. -/
theorem claim_C6_witness :
    adapt_sundials_types_returns_to_shared_ptr exampleBadTupleFn =
      .error
        "new_return_type.typenames has length > 1, this is not yet supported" ∧
    (∃ la c, adapt_sundials_types_returns_to_shared_ptr exampleTupleFn =
      .adapted la c) :=
  ⟨(claim_C6_multi_typename_error exampleBadTupleFn ["N_Vector", "int"]
      (by decide) (by decide) (by decide) (by decide)).1 (by decide),
    (claim_C6_multi_typename_error exampleTupleFn ["int", "N_Vector"]
      (by decide) (by decide) (by decide) (by decide)).2 (by decide)⟩

/-! ## The generation driver

Embedding of the `generate` function of `src/generate.py`.  Two views of the
per-module loop are modelled, both translated from the same source lines:

* `stepModule` / `runModules` track how the loop mutates the shared
  `options` object (the `extend` on `sundials_pointer_types` versus the
  plain assignments on the other per-module fields);
* `processModule` / `runLoop` / `generateModel` track the loop's file I/O
  and error behaviour as a trace of events.

The `load_*_from_yaml` helpers live outside `src/`; the loop only consumes
the lists they return, so each module's loaded lists appear as plain data in
`ModuleCfg`. -/

/-- The fields of the shared `litgen.LitgenOptions` object that the
per-module loop writes. -/
structure LitgenOptions where
  sundials_pointer_types : List String
  fn_params_optional_with_default_null : List String
  enum_exclude_by_name__regex : String
  class_exclude_by_name__regex : String
  fn_exclude_by_name__regex : String
  macro_define_include_by_name__regex : String
  deriving DecidableEq, Repr

/-- One module of the configuration's `modules:` section: its name, the
lists the `load_*_from_yaml` helpers return for it, its header paths, and
its optional output `path`. -/
structure ModuleCfg where
  name : String
  pointer_types : List String
  nullable_params : List String
  enum_exclusions : List String
  class_exclusions : List String
  fn_exclusions : List String
  macro_defines : List String
  headers : List String
  out_path : Option String
  deriving DecidableEq, Repr

/-- `code_utils.join_string_by_pipe_char`: join regex fragments with `|`. -/
def joinByPipeChar (xs : List String) : String :=
  joinSep "|" xs

/-- One iteration of the loop over `options`: the `"all"` pseudo-module is
skipped; otherwise `sundials_pointer_types` is extended in place with the
module's entries while the nullable list and the four regex fields are
replaced by assignment. -/
def stepModule (opts : LitgenOptions) (m : ModuleCfg) : LitgenOptions :=
  if m.name = "all" then opts
  else
    { sundials_pointer_types := opts.sundials_pointer_types ++ m.pointer_types
      fn_params_optional_with_default_null := m.nullable_params
      enum_exclude_by_name__regex := joinByPipeChar m.enum_exclusions
      class_exclude_by_name__regex := joinByPipeChar m.class_exclusions
      fn_exclude_by_name__regex := joinByPipeChar m.fn_exclusions
      macro_define_include_by_name__regex := joinByPipeChar m.macro_defines }

/-- The whole loop's effect on the shared options object. -/
def runModules (opts : LitgenOptions) (ms : List ModuleCfg) : LitgenOptions :=
  ms.foldl stepModule opts

/-- Observable I/O of one `generate` run. -/
inductive IOEvent where
  | readConfig (path : String)
  | readHeader (path : String)
  | generateBindings
  | writeFile (path : String)
  | echo
  deriving DecidableEq, Repr

/-- Errors the run can abort with. -/
inductive GenError where
  | runtimeError (msg : String)
  | keyError (key : String)
  deriving DecidableEq, Repr

/-- The body of the loop for one (non-`"all"`) module: its headers are read;
in dump mode the srcML XML is written to `path + ".xml"` (a module with no
`path` raises `KeyError("path")`) and binding generation is skipped; in
normal mode bindings are generated and written to `path`, or echoed to the
console when no `path` is configured. -/
def processModule (dump : Bool) (m : ModuleCfg) :
    List IOEvent × Option GenError :=
  let reads := m.headers.map IOEvent.readHeader
  if dump then
    match m.out_path with
    | some p => (reads ++ [IOEvent.writeFile (p ++ ".xml")], none)
    | none => (reads, some (GenError.keyError "path"))
  else
    match m.out_path with
    | some p => (reads ++ [IOEvent.generateBindings, IOEvent.writeFile p], none)
    | none => (reads ++ [IOEvent.generateBindings, IOEvent.echo], none)

/-- The loop over all configured modules, stopping at the first uncaught
exception. -/
def runLoop (dump : Bool) : List ModuleCfg → List IOEvent × Option GenError
  | [] => ([], none)
  | m :: ms =>
    if m.name = "all" then runLoop dump ms
    else
      match processModule dump m with
      | (evs, some e) => (evs, some e)
      | (evs, none) =>
        let rest := runLoop dump ms
        (evs ++ rest.1, rest.2)

/-- A `generate.yaml` configuration: the path it was loaded from, and its
`modules:` section (`none` when the key is missing or its value is falsy;
`yaml.safe_load(...).get("modules", [])` makes the two indistinguishable). -/
structure Config where
  config_path : String
  modules : Option (List ModuleCfg)
  deriving Repr

/-- `generate(config_yaml_path, dump_srcml)`: read the configuration, fail
with the `RuntimeError` naming the config path when the `modules:` section
is missing or empty, and otherwise run the per-module loop. -/
def generateModel (cfg : Config) (dump : Bool) :
    List IOEvent × Option GenError :=
  match cfg.modules with
  | none =>
    ([IOEvent.readConfig cfg.config_path],
      some (GenError.runtimeError
        ("modules: section not found in " ++ cfg.config_path)))
  | some [] =>
    ([IOEvent.readConfig cfg.config_path],
      some (GenError.runtimeError
        ("modules: section not found in " ++ cfg.config_path)))
  | some ms =>
    let r := runLoop dump ms
    (IOEvent.readConfig cfg.config_path :: r.1, r.2)

/-- Across the whole loop, the shared pointer-type list only grows: the
final list is the initial one followed by the entries of every non-`"all"`
module, in order. -/
theorem runModules_pointer_types (opts : LitgenOptions)
    (ms : List ModuleCfg) :
    (runModules opts ms).sundials_pointer_types =
      opts.sundials_pointer_types ++
        (ms.filter (fun m => !(m.name == "all"))).flatMap
          (fun m => m.pointer_types) := by
  induction ms generalizing opts with
  | nil => simp [runModules]
  | cons m ms ih =>
    have hstep : runModules opts (m :: ms) =
        runModules (stepModule opts m) ms := rfl
    rw [hstep, ih]
    by_cases hall : m.name = "all"
    · simp [stepModule, hall]
    · simp [stepModule, hall, List.append_assoc]

/-- Example base options, with the pointer-type list set up as in
`src/generate.py`. -/
def exampleOptions : LitgenOptions :=
  { sundials_pointer_types := baseSundialsPointerTypes
    fn_params_optional_with_default_null := []
    enum_exclude_by_name__regex := ""
    class_exclude_by_name__regex := ""
    fn_exclude_by_name__regex := ""
    macro_define_include_by_name__regex := "" }

/-- An example per-module configuration (as the `load_*_from_yaml` helpers
would return it). -/
def exampleModuleA : ModuleCfg :=
  { name := "cvode"
    pointer_types := ["CVodeMem"]
    nullable_params := ["user_data"]
    enum_exclusions := ["CVRhsFn"]
    class_exclusions := ["CVodeMemRec"]
    fn_exclusions := ["CVodeSetErrFile"]
    macro_defines := ["CV_.*"]
    headers := ["cvode.h"]
    out_path := some "cvode.cpp" }

/-- A second example module. -/
def exampleModuleB : ModuleCfg :=
  { name := "arkode"
    pointer_types := ["ARKodeMem", "ARKodeButcherTable"]
    nullable_params := []
    enum_exclusions := []
    class_exclusions := []
    fn_exclusions := []
    macro_defines := []
    headers := ["arkode.h"]
    out_path := none }

/-- C7: across the per-module loop, `options.sundials_pointer_types` only
grows — every non-`"all"` module's entries are appended and no entry is ever
removed, so earlier modules' entries remain for later ones — whereas the
nullable-parameter list and the enum/class/function/macro regex fields are
fully replaced by assignment on every iteration (their new values depend
only on the module, not on the previous options). -/
theorem claim_C7_pointer_types_only_grow (opts : LitgenOptions)
    (ms : List ModuleCfg) :
    ((runModules opts ms).sundials_pointer_types =
      opts.sundials_pointer_types ++
        (ms.filter (fun m => !(m.name == "all"))).flatMap
          (fun m => m.pointer_types)) ∧
    (∀ m : ModuleCfg, m.name ≠ "all" →
      (stepModule opts m).fn_params_optional_with_default_null =
        m.nullable_params ∧
      (stepModule opts m).enum_exclude_by_name__regex =
        joinByPipeChar m.enum_exclusions ∧
      (stepModule opts m).class_exclude_by_name__regex =
        joinByPipeChar m.class_exclusions ∧
      (stepModule opts m).fn_exclude_by_name__regex =
        joinByPipeChar m.fn_exclusions ∧
      (stepModule opts m).macro_define_include_by_name__regex =
        joinByPipeChar m.macro_defines) := by
  refine ⟨runModules_pointer_types opts ms, ?_⟩
  intro m hm
  simp [stepModule, hm]

/-- C7 witness: running the loop over two concrete modules appends both
pointer-type lists to the base list, while the nullable list and regex
fields take the second module's values only. -/
theorem claim_C7_witness :
    ((runModules exampleOptions
        [exampleModuleA, exampleModuleB]).sundials_pointer_types =
      exampleOptions.sundials_pointer_types ++
        (([exampleModuleA, exampleModuleB].filter
          (fun m => !(m.name == "all"))).flatMap
            (fun m => m.pointer_types))) ∧
    (stepModule exampleOptions exampleModuleA).fn_params_optional_with_default_null =
      exampleModuleA.nullable_params ∧
    (stepModule exampleOptions exampleModuleA).enum_exclude_by_name__regex =
      joinByPipeChar exampleModuleA.enum_exclusions ∧
    (runModules exampleOptions
        [exampleModuleA, exampleModuleB]).sundials_pointer_types =
      baseSundialsPointerTypes ++
        ["CVodeMem", "ARKodeMem", "ARKodeButcherTable"] := by
  obtain ⟨hgrow, hrepl⟩ :=
    claim_C7_pointer_types_only_grow exampleOptions
      [exampleModuleA, exampleModuleB]
  obtain ⟨hnull, henum, -⟩ := hrepl exampleModuleA (by decide)
  exact ⟨hgrow, hnull, henum, by decide⟩

/-- C8: when the configuration's `modules:` section is missing, `generate`
raises the `RuntimeError` naming the config path, and no header file has
been read and no output file written. -/
theorem claim_C8_missing_modules_aborts (cfg : Config) (dump : Bool)
    (h : cfg.modules = none) :
    generateModel cfg dump =
      ([IOEvent.readConfig cfg.config_path],
        some (GenError.runtimeError
          ("modules: section not found in " ++ cfg.config_path))) ∧
    (∀ p, IOEvent.readHeader p ∉ (generateModel cfg dump).1 ∧
      IOEvent.writeFile p ∉ (generateModel cfg dump).1) := by
  have heq : generateModel cfg dump =
      ([IOEvent.readConfig cfg.config_path],
        some (GenError.runtimeError
          ("modules: section not found in " ++ cfg.config_path))) := by
    unfold generateModel
    rw [h]
  refine ⟨heq, ?_⟩
  intro p
  rw [heq]
  simp

/-- C8 witness: the missing-`modules:` error at a concrete config path. -/
theorem claim_C8_witness :
    generateModel { config_path := "pkg/generate.yaml", modules := none }
        false =
      ([IOEvent.readConfig "pkg/generate.yaml"],
        some (GenError.runtimeError
          ("modules: section not found in " ++ "pkg/generate.yaml"))) ∧
    (∀ p, IOEvent.readHeader p ∉
        (generateModel { config_path := "pkg/generate.yaml", modules := none }
          false).1 ∧
      IOEvent.writeFile p ∉
        (generateModel { config_path := "pkg/generate.yaml", modules := none }
          false).1) :=
  claim_C8_missing_modules_aborts
    { config_path := "pkg/generate.yaml", modules := none } false rfl

/-- C10: in dump mode a module with a configured `path` gets the srcML XML
written to `path + ".xml"` and binding generation is skipped; a module
without a `path` raises `KeyError("path")` in dump mode; in normal mode a
missing `path` is handled by generating the bindings and echoing them to the
console. -/
theorem claim_C10_dump_mode_path_handling (m : ModuleCfg) :
    (∀ p, m.out_path = some p →
      processModule true m =
        (m.headers.map IOEvent.readHeader ++
          [IOEvent.writeFile (p ++ ".xml")], none) ∧
      IOEvent.generateBindings ∉ (processModule true m).1) ∧
    (m.out_path = none →
      processModule true m =
        (m.headers.map IOEvent.readHeader,
          some (GenError.keyError "path"))) ∧
    (m.out_path = none →
      processModule false m =
        (m.headers.map IOEvent.readHeader ++
          [IOEvent.generateBindings, IOEvent.echo], none)) := by
  refine ⟨?_, ?_, ?_⟩
  · intro p hp
    have heq : processModule true m =
        (m.headers.map IOEvent.readHeader ++
          [IOEvent.writeFile (p ++ ".xml")], none) := by
      unfold processModule
      rw [hp]
      simp
    refine ⟨heq, ?_⟩
    rw [heq]
    simp
  · intro hp
    unfold processModule
    rw [hp]
    simp
  · intro hp
    unfold processModule
    rw [hp]
    simp

/-- C10 witness: dump mode on a module with `path = "cvode.cpp"` writes
`cvode.cpp.xml` and generates no bindings; dump mode on a path-less module
raises `KeyError("path")`; normal mode on the same path-less module echoes. -/
theorem claim_C10_witness :
    processModule true exampleModuleA =
      (exampleModuleA.headers.map IOEvent.readHeader ++
        [IOEvent.writeFile ("cvode.cpp" ++ ".xml")], none) ∧
    IOEvent.generateBindings ∉ (processModule true exampleModuleA).1 ∧
    processModule true exampleModuleB =
      (exampleModuleB.headers.map IOEvent.readHeader,
        some (GenError.keyError "path")) ∧
    processModule false exampleModuleB =
      (exampleModuleB.headers.map IOEvent.readHeader ++
        [IOEvent.generateBindings, IOEvent.echo], none) := by
  obtain ⟨hA, -, -⟩ := claim_C10_dump_mode_path_handling exampleModuleA
  obtain ⟨hxa, hskip⟩ := hA "cvode.cpp" rfl
  obtain ⟨-, hB, hC⟩ := claim_C10_dump_mode_path_handling exampleModuleB
  exact ⟨hxa, hskip, hB rfl, hC rfl⟩

end Sundials4py
